import Mathlib

/-!
A shallow embedding of the account/token lifecycle of the cinema-fastapi
backend (`src/routers/accounts.py`, `src/tasks.py`, `src/database/models/accounts.py`).

The relational store is modelled as lists of records; `query(...).filter_by(...).first()`
becomes `List.find?`, `query(...).filter_by(...).delete()` becomes `List.filter` with the
negated predicate, and `db.delete(record)` (deleting the row previously returned by
`first()`) becomes `List.eraseP` with the predicate that `first()` used.  `db.commit()`
is implicit: each handler returns the committed state together with its response.
An unhandled Python exception (e.g. an `AttributeError` from dereferencing `None`)
is the `crash` response; an `HTTPException` is `err status detail`; the decorated
success status of the route is carried by `ok`.
-/

namespace Cinema

/-- A row of the `users` table (`User` in `src/database/models/accounts.py`):
id, unique email, hashed password, `is_active` (default `False`), group id. -/
structure UserRec where
  id : Nat
  email : String
  hashedPassword : String
  isActive : Bool
  groupId : Nat
deriving DecidableEq

/-- A row of the `user_groups` table (`UserGroup`). -/
structure GroupRec where
  id : Nat
  name : String
deriving DecidableEq

/-- A stored token row: `ActivationToken`, `PasswordResetToken` and `RefreshToken`
all carry an owning user id, an opaque token value, and an expiry timestamp. -/
structure TokenRec where
  userId : Nat
  token : String
  expiresAt : Int
deriving DecidableEq

/-- The database state: the tables the account flows touch, plus the autoincrement
counters the engine keeps for fresh primary keys. -/
structure DB where
  users : List UserRec
  groups : List GroupRec
  activationTokens : List TokenRec
  passwordResetTokens : List TokenRec
  refreshTokens : List TokenRec
  nextUserId : Nat
  nextGroupId : Nat
deriving DecidableEq

/-- A handler outcome: `ok` is the route's decorated success status with its payload,
`err` is a raised `HTTPException(status_code, detail)`, and `crash` is an unhandled
Python exception escaping the handler. -/
inductive Resp (α : Type) where
  | ok (status : Nat) (value : α)
  | err (status : Nat) (detail : String)
  | crash (exc : String)
deriving DecidableEq

/-- Modelled from the spec: §4.1 Password Hasher (`src/security/passwords.py` is not
under src/; the `User.password` setter and `User.verify_password` are commented out in
the model file). `hash(plaintext) -> digest`, a deterministic one-way digest. -/
def hash_password (raw : String) : String := "pbkdf2_sha256$" ++ raw

/-- Modelled from the spec: §4.1 `verify(plaintext, digest) -> bool` — true exactly when
the digest is the hash of the plaintext. -/
def verify_password (raw digest : String) : Bool := digest == hash_password raw

/-- Modelled from the spec: §3 ActivationToken — "expiry timestamp (fixed offset from
creation, e.g. 24h)"; the `ActivationToken` column defaults are not under src/. -/
def ACTIVATION_TOKEN_TTL : Int := 86400

/-- `register_user` lines 96-103: look up the requested group row, creating it when it
does not exist yet (`db.add(group); db.flush()` assigns the fresh autoincrement id). -/
def lookup_or_create_group (db : DB) (name : String) : GroupRec × DB :=
  match db.groups.find? (fun g => g.name == name) with
  | some g => (g, db)
  | none =>
    ({ id := db.nextGroupId, name := name },
     { db with
         groups := db.groups ++ [{ id := db.nextGroupId, name := name }],
         nextGroupId := db.nextGroupId + 1 })

/-- `register_user` (`src/routers/accounts.py` lines 75-135): 409 when a user with the
email exists; otherwise create the group row if needed, an inactive user with the hashed
password, and one activation token for the new user, and respond 201 with the new user.
The fresh opaque token value is passed in as `freshToken` (the generator is a
cryptographically secure random source, external to the store logic). -/
def register_user (db : DB) (email rawPassword group freshToken : String) (now : Int) :
    Resp (Nat × String × String) × DB :=
  if (db.users.find? (fun u => u.email == email)).isSome then
    (.err 409 ("A user with this email " ++ email ++ " already exists."), db)
  else
    let gdb := lookup_or_create_group db group
    let db1 := gdb.2
    let uid := db1.nextUserId
    let newUser : UserRec :=
      { id := uid, email := email, hashedPassword := hash_password rawPassword,
        isActive := false, groupId := gdb.1.id }
    let tok : TokenRec := { userId := uid, token := freshToken, expiresAt := now + ACTIVATION_TOKEN_TTL }
    (.ok 201 (uid, email, group),
     { db1 with
         users := db1.users ++ [newUser],
         nextUserId := uid + 1,
         activationTokens := db1.activationTokens ++ [tok] })

/-- The predicate of the `activate_account` query (lines 179-181):
`query(ActivationToken).join(User).filter(ActivationToken.token == token)` — the inner
join keeps only token rows whose owning user row exists. -/
def activationJoinPred (db : DB) (tokenValue : String) (t : TokenRec) : Bool :=
  t.token == tokenValue && db.users.any (fun u => u.id == t.userId)

/-- `activate_account` (lines 169-204): missing-or-expired token → 400 (deleting the
row when present), already-active user → 400 without consuming the token, otherwise set
the user active, delete the token, respond 200. -/
def activate_account (db : DB) (now : Int) (tokenValue : String) : Resp String × DB :=
  match db.activationTokens.find? (activationJoinPred db tokenValue) with
  | none => (.err 400 "Invalid or expired activation token.", db)
  | some tr =>
    if tr.expiresAt < now then
      (.err 400 "Invalid or expired activation token.",
       { db with activationTokens := db.activationTokens.eraseP (activationJoinPred db tokenValue) })
    else
      match db.users.find? (fun u => u.id == tr.userId) with
      | none => (.crash "AttributeError", db)
      | some u =>
        if u.isActive then
          (.err 400 "User account is already active.", db)
        else
          (.ok 200 "User account activated successfully.",
           { db with
               users := db.users.map (fun v => if v.id == u.id then { v with isActive := true } else v),
               activationTokens := db.activationTokens.eraseP (activationJoinPred db tokenValue) })

/-- `resend_activation_token` (lines 231-271): 404 when no user has the email; 400
"Activation token is still valid." whenever *any* activation token row exists for the
user (the row's expiry is never consulted); otherwise add a fresh token and respond 200. -/
def resend_activation_token (db : DB) (email freshToken : String) (now : Int) :
    Resp String × DB :=
  match db.users.find? (fun u => u.email == email) with
  | none => (.err 404 "User not found.", db)
  | some u =>
    if (db.activationTokens.find? (fun t => t.userId == u.id)).isSome then
      (.err 400 "Activation token is still valid.", db)
    else
      (.ok 200 "Activation token resent successfully.",
       { db with activationTokens := db.activationTokens ++
           [{ userId := u.id, token := freshToken, expiresAt := now + ACTIVATION_TOKEN_TTL }] })

/-- `login_user` (lines 313-361): 401 with one fixed detail when the user is absent or
the password fails verification; 403 when the account is inactive; otherwise persist a
refresh-token row and return the freshly minted access and refresh JWTs (passed in:
the codec is stateless and external to the store logic). -/
def login_user (db : DB) (email rawPassword jwtAccess jwtRefresh : String)
    (loginTimeDays now : Int) : Resp (String × String) × DB :=
  match db.users.find? (fun u => u.email == email) with
  | none => (.err 401 "Invalid email or password.", db)
  | some u =>
    if ! verify_password rawPassword u.hashedPassword then
      (.err 401 "Invalid email or password.", db)
    else if ! u.isActive then
      (.err 403 "User account is not activated.", db)
    else
      (.ok 201 (jwtAccess, jwtRefresh),
       { db with refreshTokens := db.refreshTokens ++
           [{ userId := u.id, token := jwtRefresh, expiresAt := now + loginTimeDays * 86400 }] })

/-- `logout_user` (lines 388-411): 404 when the authenticated user id has no user row;
401 when the user has no refresh-token row; otherwise delete the first refresh-token row
of that user (`filter_by(user_id=...).first()` then `db.delete`) and respond 200. -/
def logout_user (db : DB) (currentUserId : Nat) : Resp String × DB :=
  match db.users.find? (fun u => u.id == currentUserId) with
  | none => (.err 404 "User not found", db)
  | some u =>
    if (db.refreshTokens.find? (fun t => t.userId == u.id)).isSome then
      (.ok 200 "Logout successful.",
       { db with refreshTokens := db.refreshTokens.eraseP (fun t => t.userId == u.id) })
    else
      (.err 401 "Refresh token not found.", db)

/-- `reset_password` (`/password-reset/complete/`, lines 503-544): 400 when the user is
missing or inactive; then the handler evaluates `token_record.expires_at` *before* the
`not token_record` test, so a missing reset-token row raises `AttributeError` on `None`
(`crash`); a present row with mismatched value or past expiry is deleted and rejected
400; otherwise the password hash is replaced and the row deleted. -/
def reset_password (db : DB) (now : Int) (email tokenValue rawPassword : String) :
    Resp String × DB :=
  match db.users.find? (fun u => u.email == email) with
  | none => (.err 400 "Invalid email or token.", db)
  | some u =>
    if ! u.isActive then
      (.err 400 "Invalid email or token.", db)
    else
      match db.passwordResetTokens.find? (fun t => t.userId == u.id) with
      | none => (.crash "AttributeError", db)
      | some tr =>
        if tr.token != tokenValue || tr.expiresAt < now then
          (.err 400 "Invalid email or token.",
           { db with passwordResetTokens := db.passwordResetTokens.eraseP (fun t => t.userId == u.id) })
        else
          (.ok 200 "Password reset successfully.",
           { db with
               users := db.users.map (fun v =>
                 if v.id == u.id then { v with hashedPassword := hash_password rawPassword } else v),
               passwordResetTokens := db.passwordResetTokens.eraseP (fun t => t.userId == u.id) })

/-- `request_change_password` (lines 566-599): the user row looked up from the token's
user id is dereferenced with no `None` check (`user.verify_password`), so a missing row
raises `AttributeError`; 400 when the current password fails verification or the new
password verifies against the stored hash; otherwise replace the hash, delete *all*
refresh-token rows of the user, and respond 200. -/
def request_change_password (db : DB) (userId : Nat) (rawPassword newPassword : String) :
    Resp String × DB :=
  match db.users.find? (fun u => u.id == userId) with
  | none => (.crash "AttributeError", db)
  | some u =>
    if ! verify_password rawPassword u.hashedPassword then
      (.err 400 "Invalid email or password.", db)
    else if verify_password newPassword u.hashedPassword then
      (.err 400 "You cannot assign the same password.", db)
    else
      (.ok 200 "Password changed successfully",
       { db with
           users := db.users.map (fun v =>
             if v.id == u.id then { v with hashedPassword := hash_password newPassword } else v),
           refreshTokens := db.refreshTokens.filter (fun t => ! (t.userId == u.id)) })

/-- `refresh_access_token` (lines 641-679): `decoded` is the result of the stateless
`decode_refresh_token` (`.error msg` = `BaseSecurityError`, rejected 400 with the error
text); 401 when no stored refresh-token row carries the submitted value; 404 when the
decoded user id has no user row; otherwise delete the consumed row and return a fresh
access token. -/
def refresh_access_token (db : DB) (refreshTokenValue : String) (decoded : Except String Nat)
    (newAccessToken : String) : Resp String × DB :=
  match decoded with
  | .error msg => (.err 400 msg, db)
  | .ok userId =>
    match db.refreshTokens.find? (fun t => t.token == refreshTokenValue) with
    | none => (.err 401 "Refresh token not found.", db)
    | some _ =>
      if (db.users.find? (fun u => u.id == userId)).isSome then
        (.ok 200 newAccessToken,
         { db with refreshTokens := db.refreshTokens.eraseP (fun t => t.token == refreshTokenValue) })
      else
        (.err 404 "User not found.", db)

/-- `delete_expired_activation_tokens` (`src/tasks.py` lines 12-25): delete every
activation token row whose `expires_at` is strictly before now, commit, and fall off the
end of the function — the Python task returns `None`, modelled as the `Option Nat`
first component. -/
def delete_expired_activation_tokens (db : DB) (now : Int) : Option Nat × DB :=
  (none,
   { db with activationTokens := db.activationTokens.filter (fun t => ! decide (t.expiresAt < now)) })

/-! ### Shared list lemmas -/

/-- Erasing the (unique) element satisfying `p` leaves no element satisfying `p`. -/
theorem find?_eraseP_self_eq_none {α : Type} (p : α → Bool) (l : List α)
    (h : l.countP p ≤ 1) : (l.eraseP p).find? p = none := by
  induction l with
  | nil => rfl
  | cons a l ih =>
    by_cases hpa : p a = true
    · rw [List.eraseP_cons_of_pos hpa]
      rw [List.countP_cons] at h
      simp only [hpa, if_true] at h
      exact List.find?_eq_none.mpr (List.countP_eq_zero.mp (by omega))
    · rw [List.eraseP_cons_of_neg hpa, List.find?_cons_of_neg _ hpa]
      rw [List.countP_cons] at h
      simp only [hpa, if_false, Nat.add_zero] at h
      exact ih h

/-- Erasing an element satisfying `p` does not change the sublist selected by a
predicate `q` that no `p`-element satisfies. -/
theorem filter_eraseP_eq_of_imp {α : Type} (p q : α → Bool) (l : List α)
    (h : ∀ x, p x = true → q x = false) : (l.eraseP p).filter q = l.filter q := by
  induction l with
  | nil => rfl
  | cons a l ih =>
    by_cases hpa : p a = true
    · rw [List.eraseP_cons_of_pos hpa, List.filter_cons, if_neg (by simp [h a hpa])]
    · rw [List.eraseP_cons_of_neg hpa]
      simp only [List.filter_cons, ih]

/-- Erasing decreases the number of `p`-elements by exactly one when one exists. -/
theorem countP_eraseP_add_one {α : Type} (p : α → Bool) (l : List α)
    (h : 0 < l.countP p) : (l.eraseP p).countP p + 1 = l.countP p := by
  induction l with
  | nil => simp at h
  | cons a l ih =>
    by_cases hpa : p a = true
    · rw [List.eraseP_cons_of_pos hpa, List.countP_cons]
      simp [hpa]
    · rw [List.eraseP_cons_of_neg hpa, List.countP_cons, List.countP_cons]
      rw [List.countP_cons] at h
      simp only [hpa, if_false, Nat.add_zero] at h ⊢
      exact ih h

/-- `find?` only depends on the predicate's values on the list. -/
theorem find?_congr_pred {α : Type} (p q : α → Bool) (l : List α)
    (h : ∀ x ∈ l, p x = q x) : l.find? p = l.find? q := by
  induction l with
  | nil => rfl
  | cons a l ih =>
    have ha := h a (List.mem_cons_self a l)
    by_cases hpa : p a = true
    · rw [List.find?_cons_of_pos _ hpa, List.find?_cons_of_pos _ (ha.symm.trans hpa)]
    · rw [List.find?_cons_of_neg _ hpa,
          List.find?_cons_of_neg _ (fun hq => hpa (ha.trans hq))]
      exact ih (fun x hx => h x (List.mem_cons_of_mem a hx))

/-- `eraseP` only depends on the predicate's values on the list. -/
theorem eraseP_congr_pred {α : Type} (p q : α → Bool) (l : List α)
    (h : ∀ x ∈ l, p x = q x) : l.eraseP p = l.eraseP q := by
  induction l with
  | nil => rfl
  | cons a l ih =>
    have ha := h a (List.mem_cons_self a l)
    by_cases hpa : p a = true
    · rw [List.eraseP_cons_of_pos hpa, List.eraseP_cons_of_pos (ha.symm.trans hpa)]
    · rw [List.eraseP_cons_of_neg hpa,
          List.eraseP_cons_of_neg (fun hq => hpa (ha.trans hq)),
          ih (fun x hx => h x (List.mem_cons_of_mem a hx))]

/-- In a well-formed state (every activation token owned by an existing user), the
join predicate of the activation query agrees with the plain token-value predicate. -/
theorem activationJoinPred_eq_on_tokens {db : DB} {v : String}
    (hwf : ∀ t ∈ db.activationTokens, ∃ u ∈ db.users, u.id = t.userId) :
    ∀ t ∈ db.activationTokens, activationJoinPred db v t = (t.token == v) := by
  intro t ht
  obtain ⟨u, hu, hid⟩ := hwf t ht
  have hany : db.users.any (fun u2 => u2.id == t.userId) = true := by
    rw [List.any_eq_true]
    exact ⟨u, hu, by simp [hid]⟩
  simp [activationJoinPred, hany]

/-! ### Concrete states used to evaluate the handlers -/

/-- An active user with no stored password-reset token. -/
def dbResetMissing : DB :=
  { users := [{ id := 1, email := "a@b.com", hashedPassword := hash_password "Secret1!",
                isActive := true, groupId := 1 }],
    groups := [{ id := 1, name := "user" }],
    activationTokens := [], passwordResetTokens := [], refreshTokens := [],
    nextUserId := 2, nextGroupId := 2 }

/-- An inactive user whose only activation token expired at time 5. -/
def dbResendExpired : DB :=
  { users := [{ id := 1, email := "a@b.com", hashedPassword := hash_password "Secret1!",
                isActive := false, groupId := 1 }],
    groups := [{ id := 1, name := "user" }],
    activationTokens := [{ userId := 1, token := "old", expiresAt := 5 }],
    passwordResetTokens := [], refreshTokens := [], nextUserId := 2, nextGroupId := 2 }

/-- A state whose single activation token expired at time 5. -/
def dbSweep : DB :=
  { users := [{ id := 1, email := "a@b.com", hashedPassword := hash_password "Secret1!",
                isActive := false, groupId := 1 }],
    groups := [{ id := 1, name := "user" }],
    activationTokens := [{ userId := 1, token := "t", expiresAt := 5 }],
    passwordResetTokens := [], refreshTokens := [], nextUserId := 2, nextGroupId := 2 }

/-- An empty store: no user rows at all. -/
def dbNoUser : DB :=
  { users := [], groups := [], activationTokens := [], passwordResetTokens := [],
    refreshTokens := [], nextUserId := 1, nextGroupId := 1 }

/-- One active user for exercising the login oracle property. -/
def dbLogin : DB :=
  { users := [{ id := 1, email := "a@b.com", hashedPassword := hash_password "Secret1!",
                isActive := true, groupId := 1 }],
    groups := [{ id := 1, name := "user" }],
    activationTokens := [], passwordResetTokens := [], refreshTokens := [],
    nextUserId := 2, nextGroupId := 2 }

/-! ### Claim theorems -/

/-- C1: the claim fails on the code — at a state whose user is active but has no stored
reset-token record, `reset_password` evaluates `token_record.expires_at` on `None` and
crashes with `AttributeError` instead of responding 400 "Invalid email or token." as the
spec requires (the dead `not token_record` test on the next line shows the intent). -/
theorem reset_password_crashes_when_record_missing :
    reset_password dbResetMissing 100 "a@b.com" "tok" "Newpass1!" =
      (.crash "AttributeError", dbResetMissing) := rfl

/-- C2: the claim fails on the code — at a state whose only stored activation token for
the user is expired (expiry 5, request at time 1000), `resend_activation_token` rejects
400 "Activation token is still valid." instead of issuing a new token, contradicting the
route's own description "Resend the activation token if the previous one expired.". -/
theorem resend_rejects_expired_token_as_still_valid :
    (∀ t ∈ dbResendExpired.activationTokens, t.expiresAt < 1000) ∧
    resend_activation_token dbResendExpired "a@b.com" "fresh" 1000 =
      (.err 400 "Activation token is still valid.", dbResendExpired) :=
  ⟨by decide, rfl⟩

/-- C3 counterexample: at a state with exactly one expired activation token the sweep
deletes that one token but does not return the number deleted — the task falls off the
end and returns `None`, not `1`. -/
theorem sweep_does_not_return_count :
    dbSweep.activationTokens.length = 1 ∧
    (delete_expired_activation_tokens dbSweep 10).2.activationTokens.length = 0 ∧
    (delete_expired_activation_tokens dbSweep 10).1 ≠ some 1 := by
  refine ⟨rfl, rfl, ?_⟩
  simp [delete_expired_activation_tokens]

/-- C3 (amended): one run of the sweep deletes exactly those activation tokens whose
expiry is in the past at sweep time, leaves every password-reset token, refresh token
and user unchanged, and returns no count (the task returns `None`). -/
theorem sweep_deletes_exactly_expired_tokens (db : DB) (now : Int) :
    (∀ t, t ∈ (delete_expired_activation_tokens db now).2.activationTokens ↔
       (t ∈ db.activationTokens ∧ ¬ t.expiresAt < now)) ∧
    (delete_expired_activation_tokens db now).2.passwordResetTokens = db.passwordResetTokens ∧
    (delete_expired_activation_tokens db now).2.refreshTokens = db.refreshTokens ∧
    (delete_expired_activation_tokens db now).2.users = db.users ∧
    (delete_expired_activation_tokens db now).1 = none := by
  refine ⟨fun t => ?_, rfl, rfl, rfl, rfl⟩
  simp [delete_expired_activation_tokens, List.mem_filter]

/-- C5: a login whose email matches no user and a login with an existing user's email
but a password that fails verification produce identical responses — both are the same
401 with detail "Invalid email or password.", and neither changes the store. -/
theorem login_absent_and_wrong_password_indistinguishable
    (db : DB) (e1 p1 e2 p2 a1 r1 a2 r2 : String) (d1 d2 now1 now2 : Int) (u : UserRec)
    (h1 : db.users.find? (fun w => w.email == e1) = none)
    (h2 : db.users.find? (fun w => w.email == e2) = some u)
    (h3 : verify_password p2 u.hashedPassword = false) :
    login_user db e1 p1 a1 r1 d1 now1 = (.err 401 "Invalid email or password.", db) ∧
    login_user db e2 p2 a2 r2 d2 now2 = (.err 401 "Invalid email or password.", db) ∧
    login_user db e1 p1 a1 r1 d1 now1 = login_user db e2 p2 a2 r2 d2 now2 := by
  have hA : login_user db e1 p1 a1 r1 d1 now1 = (.err 401 "Invalid email or password.", db) := by
    simp [login_user, h1]
  have hB : login_user db e2 p2 a2 r2 d2 now2 = (.err 401 "Invalid email or password.", db) := by
    simp [login_user, h2, h3]
  exact ⟨hA, hB, hA.trans hB.symm⟩

/-- C5 witness: the oracle property evaluated at a concrete store, a nonexistent email
and a wrong password for the existing user. -/
theorem login_indistinguishable_witness :
    login_user dbLogin "ghost@b.com" "x" "ja" "jr" 7 0 =
      (.err 401 "Invalid email or password.", dbLogin) ∧
    login_user dbLogin "a@b.com" "wrong" "ja" "jr" 7 0 =
      (.err 401 "Invalid email or password.", dbLogin) ∧
    login_user dbLogin "ghost@b.com" "x" "ja" "jr" 7 0 =
      login_user dbLogin "a@b.com" "wrong" "ja" "jr" 7 0 :=
  login_absent_and_wrong_password_indistinguishable dbLogin
    "ghost@b.com" "x" "a@b.com" "wrong" "ja" "jr" "ja" "jr" 7 7 0 0
    { id := 1, email := "a@b.com", hashedPassword := hash_password "Secret1!",
      isActive := true, groupId := 1 }
    (by decide) (by decide) (by decide)

/-- C10: the claim fails on the code — with a valid access token decoding to user id 5
but no user row with id 5, `request_change_password` dereferences the absent lookup
result (`None.verify_password`) and crashes with `AttributeError` instead of returning
one of the documented 200/400/500 responses. -/
theorem change_password_crashes_when_user_row_missing :
    request_change_password dbNoUser 5 "Oldpass1!" "Newpass1!" =
      (.crash "AttributeError", dbNoUser) := rfl

/-- An inactive user with one unexpired activation token (expiry 500). -/
def dbActivate : DB :=
  { users := [{ id := 1, email := "a@b.com", hashedPassword := hash_password "Secret1!",
                isActive := false, groupId := 1 }],
    groups := [{ id := 1, name := "user" }],
    activationTokens := [{ userId := 1, token := "tokv", expiresAt := 500 }],
    passwordResetTokens := [], refreshTokens := [], nextUserId := 2, nextGroupId := 2 }

/-- C4: on a well-formed store (tokens owned by existing users, token values unique),
an activation request whose value matches no record, or matches an expired record, is
rejected 400 — deleting the record exactly when present — and leaves every user row (so
every active flag) unchanged; an expired token is never accepted; a valid unexpired
token of an inactive user sets that user active and deletes the token. -/
theorem activate_account_state_machine (db : DB) (now : Int) (v : String)
    (hwf : ∀ t ∈ db.activationTokens, ∃ u ∈ db.users, u.id = t.userId)
    (huniq : db.activationTokens.countP (fun t => t.token == v) ≤ 1) :
    (db.activationTokens.find? (fun t => t.token == v) = none →
       activate_account db now v = (.err 400 "Invalid or expired activation token.", db)) ∧
    (∀ tr, db.activationTokens.find? (fun t => t.token == v) = some tr →
       tr.expiresAt < now →
       (activate_account db now v).1 = .err 400 "Invalid or expired activation token." ∧
       (activate_account db now v).2.users = db.users ∧
       (activate_account db now v).2.activationTokens.find? (fun t => t.token == v) = none) ∧
    (∀ tr u, db.activationTokens.find? (fun t => t.token == v) = some tr →
       ¬ tr.expiresAt < now →
       db.users.find? (fun w => w.id == tr.userId) = some u →
       u.isActive = false →
       (activate_account db now v).1 = .ok 200 "User account activated successfully." ∧
       (∀ w ∈ (activate_account db now v).2.users, w.id = u.id → w.isActive = true) ∧
       (activate_account db now v).2.activationTokens.find? (fun t => t.token == v) = none) := by
  have hpe := @activationJoinPred_eq_on_tokens db v hwf
  have hfind : db.activationTokens.find? (activationJoinPred db v) =
      db.activationTokens.find? (fun t => t.token == v) :=
    find?_congr_pred _ _ _ hpe
  have herase : db.activationTokens.eraseP (activationJoinPred db v) =
      db.activationTokens.eraseP (fun t => t.token == v) :=
    eraseP_congr_pred _ _ _ hpe
  have hgone : (db.activationTokens.eraseP (fun t => t.token == v)).find?
      (fun t => t.token == v) = none :=
    find?_eraseP_self_eq_none _ _ huniq
  refine ⟨?_, ?_, ?_⟩
  · intro h
    simp [activate_account, hfind, h]
  · intro tr h hexp
    have hres : activate_account db now v =
        (.err 400 "Invalid or expired activation token.",
         { db with activationTokens := db.activationTokens.eraseP (activationJoinPred db v) }) := by
      simp [activate_account, hfind, h, hexp]
    rw [hres]
    exact ⟨rfl, rfl, by rw [herase]; exact hgone⟩
  · intro tr u h hexp huser hact
    have hres : activate_account db now v =
        (.ok 200 "User account activated successfully.",
         { db with
             users := db.users.map (fun w => if w.id == u.id then { w with isActive := true } else w),
             activationTokens := db.activationTokens.eraseP (activationJoinPred db v) }) := by
      simp [activate_account, hfind, h, hexp, huser, hact]
    rw [hres]
    refine ⟨rfl, ?_, by rw [herase]; exact hgone⟩
    intro w hw hwid
    rw [List.mem_map] at hw
    obtain ⟨x, hx, hfx⟩ := hw
    by_cases hxe : (x.id == u.id) = true
    · rw [if_pos hxe] at hfx
      rw [← hfx]
    · rw [if_neg hxe] at hfx
      exact absurd (by rw [← hfx] at hwid; simp [hwid]) hxe

/-- C4 witness: on the concrete store, a request with a value matching no record is
rejected 400 with the store unchanged. -/
theorem activate_account_missing_token_witness :
    activate_account dbActivate 100 "nope" =
      (.err 400 "Invalid or expired activation token.", dbActivate) :=
  (activate_account_state_machine dbActivate 100 "nope" (by decide) (by decide)).1 (by decide)

/-- An active user holding one stored refresh token. -/
def dbRefresh : DB :=
  { users := [{ id := 1, email := "a@b.com", hashedPassword := hash_password "Secret1!",
                isActive := true, groupId := 1 }],
    groups := [{ id := 1, name := "user" }],
    activationTokens := [], passwordResetTokens := [],
    refreshTokens := [{ userId := 1, token := "rt", expiresAt := 999 }],
    nextUserId := 2, nextGroupId := 2 }

/-- C6: a successful token-refresh exchange deletes the consumed refresh-token record
(no stored record carries the value afterwards, given the value was unique), and a
second exchange presenting the same value fails 401 "Refresh token not found." without
changing the store again. -/
theorem refresh_token_single_use (db : DB) (v a1 a2 : String) (uid : Nat) (tr : TokenRec)
    (hfind : db.refreshTokens.find? (fun t => t.token == v) = some tr)
    (huser : (db.users.find? (fun w => w.id == uid)).isSome = true)
    (huniq : db.refreshTokens.countP (fun t => t.token == v) ≤ 1) :
    (refresh_access_token db v (.ok uid) a1).1 = .ok 200 a1 ∧
    (refresh_access_token db v (.ok uid) a1).2.refreshTokens.find?
      (fun t => t.token == v) = none ∧
    refresh_access_token (refresh_access_token db v (.ok uid) a1).2 v (.ok uid) a2 =
      (.err 401 "Refresh token not found.", (refresh_access_token db v (.ok uid) a1).2) := by
  have hnone := find?_eraseP_self_eq_none (fun t => t.token == v) db.refreshTokens huniq
  have hdb : (refresh_access_token db v (.ok uid) a1).2 =
      { db with refreshTokens := db.refreshTokens.eraseP (fun t => t.token == v) } := by
    simp [refresh_access_token, hfind, huser]
  refine ⟨by simp [refresh_access_token, hfind, huser], ?_, ?_⟩
  · rw [hdb]
    exact hnone
  · rw [hdb]
    simp [refresh_access_token, hnone]

/-- C6 witness: the single-use property evaluated on the concrete store holding one
refresh token "rt" for user 1. -/
theorem refresh_token_single_use_witness :
    (refresh_access_token dbRefresh "rt" (.ok 1) "na").1 = .ok 200 "na" ∧
    (refresh_access_token dbRefresh "rt" (.ok 1) "na").2.refreshTokens.find?
      (fun t => t.token == "rt") = none ∧
    refresh_access_token (refresh_access_token dbRefresh "rt" (.ok 1) "na").2 "rt" (.ok 1) "nb" =
      (.err 401 "Refresh token not found.", (refresh_access_token dbRefresh "rt" (.ok 1) "na").2) :=
  refresh_token_single_use dbRefresh "rt" "na" "nb" 1 ⟨1, "rt", 999⟩
    (by decide) (by decide) (by decide)

/-- Looking up or creating a group row touches only the group table and its counter. -/
theorem lookup_or_create_group_frame (db : DB) (n : String) :
    (lookup_or_create_group db n).2.users = db.users ∧
    (lookup_or_create_group db n).2.activationTokens = db.activationTokens ∧
    (lookup_or_create_group db n).2.nextUserId = db.nextUserId := by
  rcases h : db.groups.find? (fun g => g.name == n) with _ | g <;>
    simp [lookup_or_create_group, h]

/-- C7: on a well-formed store (user ids below the autoincrement counter, every
activation token owned by an existing user), registering a fresh email responds 201 and
creates an inactive user with that email together with exactly one activation token
owned by them; registering an email that already has a user responds 409 Conflict and
leaves the store completely unchanged. -/
theorem register_creates_inactive_user_with_one_token
    (db : DB) (e pw g ft : String) (now : Int)
    (hids : ∀ u ∈ db.users, u.id < db.nextUserId)
    (htoks : ∀ t ∈ db.activationTokens, ∃ u ∈ db.users, u.id = t.userId) :
    (db.users.find? (fun u => u.email == e) = none →
       (register_user db e pw g ft now).1 = .ok 201 (db.nextUserId, e, g) ∧
       (∃ u ∈ (register_user db e pw g ft now).2.users,
          u.id = db.nextUserId ∧ u.email = e ∧ u.isActive = false) ∧
       (register_user db e pw g ft now).2.activationTokens.countP
         (fun t => t.userId == db.nextUserId) = 1) ∧
    (∀ u0, db.users.find? (fun u => u.email == e) = some u0 →
       register_user db e pw g ft now =
         (.err 409 ("A user with this email " ++ e ++ " already exists."), db)) := by
  obtain ⟨hgu, hgt, hgn⟩ := lookup_or_create_group_frame db g
  constructor
  · intro h
    have hs : (db.users.find? (fun u => u.email == e)).isSome = false := by
      rw [h]
      rfl
    have h0 : db.activationTokens.countP (fun t => t.userId == db.nextUserId) = 0 := by
      rw [List.countP_eq_zero]
      intro t htok
      obtain ⟨u2, hu2, hid⟩ := htoks t htok
      have hlt := hids u2 hu2
      simp only [beq_iff_eq]
      omega
    refine ⟨by simp [register_user, hs, hgn], ?_, ?_⟩
    · refine ⟨{ id := db.nextUserId, email := e, hashedPassword := hash_password pw,
                isActive := false, groupId := (lookup_or_create_group db g).1.id },
              ?_, rfl, rfl, rfl⟩
      simp [register_user, hs, hgu, hgn]
    · simp [register_user, hs, hgt, hgn, List.countP_append, h0, List.countP_cons]
  · intro u0 h
    simp [register_user, h]

/-- C7 witness: registering a fresh email on the empty store creates user 1 inactive
with exactly one activation token. -/
theorem register_fresh_email_witness :
    (register_user dbNoUser "a@b.com" "Secret1!" "user" "tk" 0).1 =
      .ok 201 (dbNoUser.nextUserId, "a@b.com", "user") ∧
    (∃ u ∈ (register_user dbNoUser "a@b.com" "Secret1!" "user" "tk" 0).2.users,
       u.id = dbNoUser.nextUserId ∧ u.email = "a@b.com" ∧ u.isActive = false) ∧
    (register_user dbNoUser "a@b.com" "Secret1!" "user" "tk" 0).2.activationTokens.countP
      (fun t => t.userId == dbNoUser.nextUserId) = 1 :=
  (register_creates_inactive_user_with_one_token dbNoUser "a@b.com" "Secret1!" "user" "tk" 0
    (by decide) (by decide)).1 (by decide)

/-- The user exercising the password-change flow. -/
def cwUser : UserRec :=
  { id := 1, email := "a@b.com", hashedPassword := hash_password "Secret1!",
    isActive := true, groupId := 1 }

/-- A store where `cwUser` holds one refresh token. -/
def dbChange : DB :=
  { users := [cwUser], groups := [{ id := 1, name := "user" }], activationTokens := [],
    passwordResetTokens := [],
    refreshTokens := [{ userId := 1, token := "rt", expiresAt := 999 }],
    nextUserId := 2, nextGroupId := 2 }

/-- C8: a password-change request fails 400 when the current password does not verify,
or when the new password verifies against the stored hash; on success the stored hash
becomes the hash of the new password, every refresh-token record of the user is deleted,
and a refresh exchange with any token value that belonged to the user is subsequently
rejected 401. -/
theorem change_password_checks_and_revokes (db : DB) (uid : Nat) (pw npw : String) (u : UserRec)
    (hu : db.users.find? (fun w => w.id == uid) = some u) :
    (verify_password pw u.hashedPassword = false →
       request_change_password db uid pw npw = (.err 400 "Invalid email or password.", db)) ∧
    (verify_password pw u.hashedPassword = true →
       verify_password npw u.hashedPassword = true →
       request_change_password db uid pw npw =
         (.err 400 "You cannot assign the same password.", db)) ∧
    (verify_password pw u.hashedPassword = true →
       verify_password npw u.hashedPassword = false →
       (request_change_password db uid pw npw).1 = .ok 200 "Password changed successfully" ∧
       (∀ w ∈ (request_change_password db uid pw npw).2.users,
          w.id = u.id → w.hashedPassword = hash_password npw) ∧
       (request_change_password db uid pw npw).2.refreshTokens.countP
         (fun t => t.userId == u.id) = 0 ∧
       (∀ v uid2 a, (∀ t ∈ db.refreshTokens, t.token = v → t.userId = u.id) →
          (refresh_access_token (request_change_password db uid pw npw).2 v (.ok uid2) a).1 =
            .err 401 "Refresh token not found.")) := by
  refine ⟨?_, ?_, ?_⟩
  · intro hv
    simp [request_change_password, hu, hv]
  · intro hv hn
    simp [request_change_password, hu, hv, hn]
  · intro hv hn
    have hres : request_change_password db uid pw npw =
        (.ok 200 "Password changed successfully",
         { db with
             users := db.users.map (fun w =>
               if w.id == u.id then { w with hashedPassword := hash_password npw } else w),
             refreshTokens := db.refreshTokens.filter (fun t => ! (t.userId == u.id)) }) := by
      simp [request_change_password, hu, hv, hn]
    rw [hres]
    refine ⟨rfl, ?_, ?_, ?_⟩
    · intro w hw hwid
      rw [List.mem_map] at hw
      obtain ⟨x, hx, hfx⟩ := hw
      by_cases hxe : (x.id == u.id) = true
      · rw [if_pos hxe] at hfx
        rw [← hfx]
      · rw [if_neg hxe] at hfx
        exact absurd (by rw [← hfx] at hwid; simp [hwid]) hxe
    · rw [List.countP_eq_zero]
      intro t ht
      rw [List.mem_filter] at ht
      simpa using ht.2
    · intro v uid2 a hown
      have hnone : (db.refreshTokens.filter (fun t => ! (t.userId == u.id))).find?
          (fun t => t.token == v) = none := by
        rw [List.find?_eq_none]
        intro x hx hxv
        rw [List.mem_filter] at hx
        have hxu := hown x hx.1 (by simpa using hxv)
        have := hx.2
        simp [hxu] at this
      simp [refresh_access_token, hnone]

/-- C8 witness: a successful change on the concrete store updates the hash, leaves no
refresh token for the user, and makes a replay of the user's old token fail 401. -/
theorem change_password_revokes_witness :
    (request_change_password dbChange 1 "Secret1!" "Newpass1!").1 =
      .ok 200 "Password changed successfully" ∧
    (∀ w ∈ (request_change_password dbChange 1 "Secret1!" "Newpass1!").2.users,
       w.id = cwUser.id → w.hashedPassword = hash_password "Newpass1!") ∧
    (request_change_password dbChange 1 "Secret1!" "Newpass1!").2.refreshTokens.countP
      (fun t => t.userId == cwUser.id) = 0 ∧
    (∀ v uid2 a, (∀ t ∈ dbChange.refreshTokens, t.token = v → t.userId = cwUser.id) →
       (refresh_access_token (request_change_password dbChange 1 "Secret1!" "Newpass1!").2
          v (.ok uid2) a).1 = .err 401 "Refresh token not found.") :=
  (change_password_checks_and_revokes dbChange 1 "Secret1!" "Newpass1!" cwUser
    (by decide)).2.2 (by decide) (by decide)

/-- The user exercising the logout flow. -/
def loUser : UserRec :=
  { id := 1, email := "a@b.com", hashedPassword := hash_password "Secret1!",
    isActive := true, groupId := 1 }

/-- A store where `loUser` holds two refresh tokens and another user id holds one. -/
def dbLogout : DB :=
  { users := [loUser], groups := [{ id := 1, name := "user" }], activationTokens := [],
    passwordResetTokens := [],
    refreshTokens := [{ userId := 1, token := "r1", expiresAt := 999 },
                      { userId := 1, token := "r2", expiresAt := 999 },
                      { userId := 7, token := "r3", expiresAt := 999 }],
    nextUserId := 2, nextGroupId := 2 }

/-- C9: for a logout by an existing user, the response is 401 exactly when the user
holds zero refresh-token records; when they hold at least one, the handler responds 200,
exactly one of their records is deleted (their count drops by one), the surviving
records are among the original ones, every other user's records are untouched, and the
user table is unchanged. -/
theorem logout_deletes_exactly_one_refresh_record (db : DB) (uid : Nat) (u : UserRec)
    (hu : db.users.find? (fun w => w.id == uid) = some u) :
    ((logout_user db uid).1 = .err 401 "Refresh token not found." ↔
       db.refreshTokens.countP (fun t => t.userId == u.id) = 0) ∧
    (0 < db.refreshTokens.countP (fun t => t.userId == u.id) →
       (logout_user db uid).1 = .ok 200 "Logout successful." ∧
       (logout_user db uid).2.refreshTokens.countP (fun t => t.userId == u.id) + 1 =
         db.refreshTokens.countP (fun t => t.userId == u.id) ∧
       List.Sublist (logout_user db uid).2.refreshTokens db.refreshTokens ∧
       (logout_user db uid).2.refreshTokens.filter (fun t => ! (t.userId == u.id)) =
         db.refreshTokens.filter (fun t => ! (t.userId == u.id)) ∧
       (logout_user db uid).2.users = db.users) := by
  rcases hfind : db.refreshTokens.find? (fun t => t.userId == u.id) with _ | x
  · have hres : logout_user db uid = (.err 401 "Refresh token not found.", db) := by
      simp [logout_user, hu, hfind]
    have h0 : db.refreshTokens.countP (fun t => t.userId == u.id) = 0 :=
      List.countP_eq_zero.mpr (List.find?_eq_none.mp hfind)
    rw [hres]
    exact ⟨by simp [h0], fun hpos => absurd h0 (by omega)⟩
  · have hres : logout_user db uid = (.ok 200 "Logout successful.",
        { db with refreshTokens := db.refreshTokens.eraseP (fun t => t.userId == u.id) }) := by
      simp [logout_user, hu, hfind]
    have hpos : 0 < db.refreshTokens.countP (fun t => t.userId == u.id) := by
      have hmem := List.mem_of_find?_eq_some hfind
      have hpx := @List.find?_some TokenRec (fun t => t.userId == u.id) x db.refreshTokens hfind
      rw [List.countP_pos_iff]
      exact ⟨x, hmem, hpx⟩
    rw [hres]
    refine ⟨⟨fun h => absurd h (by simp), fun h0 => absurd h0 (by omega)⟩,
            fun _ => ⟨rfl, ?_, ?_, ?_, rfl⟩⟩
    · exact countP_eraseP_add_one _ _ hpos
    · exact List.eraseP_sublist _
    · exact filter_eraseP_eq_of_imp _ _ _ (fun t ht => by simp [ht])

/-- C9 witness: on the concrete store where user 1 holds two refresh tokens, logout
succeeds, drops their count from two to one, and leaves the other user id's record. -/
theorem logout_single_deletion_witness :
    (logout_user dbLogout 1).1 = .ok 200 "Logout successful." ∧
    (logout_user dbLogout 1).2.refreshTokens.countP (fun t => t.userId == loUser.id) + 1 =
      dbLogout.refreshTokens.countP (fun t => t.userId == loUser.id) ∧
    List.Sublist (logout_user dbLogout 1).2.refreshTokens dbLogout.refreshTokens ∧
    (logout_user dbLogout 1).2.refreshTokens.filter (fun t => ! (t.userId == loUser.id)) =
      dbLogout.refreshTokens.filter (fun t => ! (t.userId == loUser.id)) ∧
    (logout_user dbLogout 1).2.users = dbLogout.users :=
  (logout_deletes_exactly_one_refresh_record dbLogout 1 loUser (by decide)).2 (by decide)

end Cinema
